import Mathlib

/-!
Verification of the priority-based context merge engine of the
context-engineering-framework repository (src/src/core/context.py).

The development contains two embeddings of the same code:

* a pure, value-level embedding (`Val`, `ContextManager`, `deep_merge`,
  `merge_contexts`, `get_context`, `load_from_file`) in which Python
  dictionaries are modelled as insertion-ordered association lists and
  the merge is a pure fold — faithful to the source for runs in which
  object identity plays no role;

* a heap embedding (`HVal`, `Heap`, `deepMergeH`, `mergeContextsH`) in
  which every Python dictionary is a mutable node identified by an
  address, so that the in-place mutation performed by
  `ContextManager._deep_merge` (it writes through references shared
  with the stored fragment contents) is represented exactly.  The heap
  functions carry explicit fuel and return `none` when it runs out;
  all uses below evaluate on concrete stores with ample fuel.
-/

set_option autoImplicit false

/-- A Python/JSON-like value: the untyped data stored in context
fragments.  Mappings are insertion-ordered association lists, matching
Python dictionaries built without duplicate keys. -/
inductive Val where
  | vNone : Val
  | vBool (b : Bool) : Val
  | vInt (n : Int) : Val
  | vStr (s : String) : Val
  | vList (xs : List Val) : Val
  | vDict (entries : List (String × Val)) : Val
  deriving Repr

/-- First binding of a key in an association list, as Python dict
lookup (dicts built by the code never hold duplicate keys). -/
def dictLookup {α : Type} : List (String × α) → String → Option α
  | [], _ => none
  | (k, v) :: rest, key => if k = key then some v else dictLookup rest key

/-- Python dict assignment `d[k] = v`: an existing key keeps its
position, a new key is appended at the end. -/
def dictSet {α : Type} : List (String × α) → String → α → List (String × α)
  | [], key, v => [(key, v)]
  | (k, w) :: rest, key, v =>
    if k = key then (key, v) :: rest else (k, w) :: dictSet rest key v

/-- True exactly when the value is a mapping (`isinstance(v, dict)`). -/
def Val.isDict : Val → Bool
  | .vDict _ => true
  | _ => false

mutual
/-- Pure reading of `ContextManager._deep_merge(target, source)`: fold
the entries of `source` into `target` one at a time. -/
def deep_merge : List (String × Val) → List (String × Val) → List (String × Val)
  | target, [] => target
  | target, (key, value) :: rest => deep_merge (mergeEntry target key value) rest

/-- One iteration of the `_deep_merge` loop: when the incoming value
and the current binding are both mappings they merge recursively
(`if key in target and isinstance(target[key], dict) and
isinstance(value, dict)`), otherwise `target[key] = value`. -/
def mergeEntry : List (String × Val) → String → Val → List (String × Val)
  | target, key, .vDict s =>
    match dictLookup target key with
    | some (.vDict d) => dictSet target key (.vDict (deep_merge d s))
    | _ => dictSet target key (.vDict s)
  | target, key, value => dictSet target key value
end

/-- One context fragment, as the pydantic model `ContextSource`. -/
structure ContextSource where
  name : String
  content : List (String × Val)
  priority : Int
  source_type : String
  metadata : List (String × Val)
  deriving Repr

/-- State of a `ContextManager` instance: the fragment list and the
`self.context` dictionary that caches the last merged view. -/
structure ContextManager where
  sources : List ContextSource
  context : List (String × Val)
  deriving Repr

/-- `ContextManager.__init__`. -/
def initManager : ContextManager := { sources := [], context := [] }

/-- `ContextManager.add_source`: appends a fragment; it does not touch
`self.context`. -/
def add_source (st : ContextManager) (name : String) (content : List (String × Val))
    (priority : Int) (sourceType : String) (metadata : List (String × Val)) :
    ContextManager :=
  { st with
    sources := st.sources ++ [⟨name, content, priority, sourceType, metadata⟩] }

/-- Stable insertion of an element into a list sorted by key in
descending order: the new element goes after every element of greater
or equal key. -/
def insertDescBy {α : Type} (pri : α → Int) (x : α) : List α → List α
  | [] => [x]
  | y :: ys => if pri x ≤ pri y then y :: insertDescBy pri x ys else x :: y :: ys

/-- Embedding of Python `sorted(l, key=pri, reverse=True)`: a stable
sort placing higher keys first and preserving original order among
equal keys. -/
def sortDescBy {α : Type} (pri : α → Int) (l : List α) : List α :=
  l.foldl (fun acc x => insertDescBy pri x acc) []

/-- The sort in `merge_contexts`: `sorted(self.sources, key=lambda x:
x.priority, reverse=True)`. -/
def sortDesc (l : List ContextSource) : List ContextSource :=
  sortDescBy (fun s => s.priority) l

/-- `ContextManager.merge_contexts`: sort the fragments by priority,
highest first, fold each content into an initially empty accumulator
with `deep_merge`, store the result in `self.context` and return it. -/
def merge_contexts (st : ContextManager) : ContextManager × List (String × Val) :=
  let merged := (sortDesc st.sources).foldl (fun acc s => deep_merge acc s.content) []
  ({ st with context := merged }, merged)

/-- Python exceptions that the modelled code can raise. -/
inductive PyExc where
  | keyError (msg : String) : PyExc
  | typeError (msg : String) : PyExc
  | fileNotFoundError (msg : String) : PyExc
  | valueError (msg : String) : PyExc
  | jsonDecodeError (msg : String) : PyExc
  | yamlError (msg : String) : PyExc
  | validationError (msg : String) : PyExc
  deriving Repr, DecidableEq

/-- The message produced by Python `str(e)` for each modelled
exception (for parse and validation errors the carried string is that
rendering). -/
def PyExc.toStr : PyExc → String
  | .keyError m => m
  | .typeError m => m
  | .fileNotFoundError m => m
  | .valueError m => m
  | .jsonDecodeError m => m
  | .yamlError m => m
  | .validationError m => m

/-- Python subscripting `value[k]` with a string key: a mapping yields
the binding or a `KeyError`; every non-mapping value (list, string,
number, boolean, None) raises a `TypeError`. -/
def subscript (v : Val) (k : String) : Except PyExc Val :=
  match v with
  | .vDict d =>
    match dictLookup d k with
    | some x => .ok x
    | none => .error (.keyError k)
  | _ => .error (.typeError "value is not subscriptable by a string key")

/-- The key walk in `ContextManager.get_context`: `for k in keys:
value = value[k]`, stopping at the first exception. -/
def walkPath (v : Val) : List String → Except PyExc Val
  | [] => .ok v
  | k :: rest =>
    match subscript v k with
    | .ok v2 => walkPath v2 rest
    | .error e => .error e

/-- Split a character list at every occurrence of a separator. -/
def splitChar (sep : Char) : List Char → List (List Char)
  | [] => [[]]
  | c :: rest =>
    if c = sep then [] :: splitChar sep rest
    else
      match splitChar sep rest with
      | [] => [[c]]
      | g :: gs => (c :: g) :: gs

/-- Python `key.split(".")`: the empty string yields [""], adjacent
dots yield empty segments. -/
def splitDot (s : String) : List String :=
  (splitChar '.' s.data).map (fun cs => ⟨cs⟩)

/-- The guard `if not self.context: self.merge_contexts()` at the top
of `get_context`. -/
def ensureMerged (st : ContextManager) : ContextManager :=
  if st.context.isEmpty then (merge_contexts st).1 else st

/-- `ContextManager.get_context(key, default)`: `key = none` models
the Python call with `key=None`.  The walk catches `KeyError` and
`TypeError` and returns `default`; any other exception would
propagate, hence the `Except` result type. -/
def get_context (st : ContextManager) (key : Option String) (default : Val) :
    Except PyExc (ContextManager × Val) :=
  let st1 := ensureMerged st
  match key with
  | none => .ok (st1, .vDict st1.context)
  | some k =>
    match walkPath (.vDict st1.context) (splitDot k) with
    | .ok v => .ok (st1, v)
    | .error (.keyError _) => .ok (st1, default)
    | .error (.typeError _) => .ok (st1, default)
    | .error e => .error e

/-- The last path component, `pathlib.Path(p).name`. -/
def pathName (p : String) : String :=
  ((splitChar '/' p.data).map (fun cs => (⟨cs⟩ : String))).getLastD ""

/-- The extension, `pathlib.Path(p).suffix`: the last component from
its last dot on, empty when the dot is absent, leading or trailing. -/
def pathSuffix (p : String) : String :=
  let cs := (pathName p).data
  match ((List.range cs.length).filter (fun j => cs.getD j ' ' = '.')).getLast? with
  | some i => if 0 < i ∧ i < cs.length - 1 then ⟨cs.drop i⟩ else ""
  | none => ""

/-- Python `str.lower()` restricted to ASCII, which covers the file
extensions compared against. -/
def strLower (s : String) : String :=
  ⟨s.data.map (fun c => if 'A' ≤ c ∧ c ≤ 'Z' then Char.ofNat (c.toNat + 32) else c)⟩

/-- What the modelled `str(pydantic.ValidationError)` renders when the
content handed to `ContextSource` is not a mapping. -/
def pydanticValidationMsg : String :=
  "1 validation error for ContextSource: content is not a valid dictionary"

/-- The `ContextSource(...)` construction inside `add_source`: pydantic
validates that `content` is a mapping and raises `ValidationError`
otherwise; on success the fragment is appended. -/
def addSourceChecked (st : ContextManager) (name : String) (content : Val)
    (priority : Int) (sourceType : String) (metadata : List (String × Val)) :
    Except PyExc ContextManager :=
  match content with
  | .vDict d => .ok (add_source st name d priority sourceType metadata)
  | _ => .error (.validationError pydanticValidationMsg)

/-- A file visible to `load_from_file`: the outcomes of running the
external `json.load` and `yaml.safe_load` parsers on its text, and the
rendering of `str(path.absolute())` in the current environment. -/
structure FileEntry where
  parseJson : Except PyExc Val
  parseYaml : Except PyExc Val
  absolutePath : String

/-- The filesystem as `load_from_file` observes it: `none` means
`path.exists()` is false. -/
abbrev Filesystem : Type := String → Option FileEntry

/-- `ContextManager.load_from_file`: a missing path raises
`FileNotFoundError` before the `try` block; inside it, the extension
selects the JSON or YAML parser, an unrecognized extension raises a
`ValueError`, and the parsed content goes through `add_source` (where
pydantic rejects a non-mapping).  Any exception from inside the `try`
is caught and re-raised as `ValueError` with the original rendering
appended to the message. -/
def load_from_file (fs : Filesystem) (st : ContextManager) (filePath : String)
    (priority : Int) : Except PyExc ContextManager :=
  match fs filePath with
  | none => .error (.fileNotFoundError ("Context file not found: " ++ filePath))
  | some entry =>
    let sfx := strLower (pathSuffix filePath)
    let attempt : Except PyExc ContextManager :=
      if sfx = ".json" then
        entry.parseJson.bind fun content =>
          addSourceChecked st (pathName filePath) content priority "file"
            [("path", .vStr entry.absolutePath)]
      else if sfx = ".yaml" ∨ sfx = ".yml" then
        entry.parseYaml.bind fun content =>
          addSourceChecked st (pathName filePath) content priority "file"
            [("path", .vStr entry.absolutePath)]
      else
        .error (.valueError ("Unsupported file format: " ++ pathSuffix filePath))
    match attempt with
    | .ok st2 => .ok st2
    | .error e =>
      .error (.valueError ("Failed to load context from " ++ filePath ++ ": " ++ e.toStr))

/-- Modelled from the spec: `removeSource(name)` is absent from the
source tree (only an example script calls it), so it is taken from the
spec words — remove every fragment whose name exactly equals the
argument, invalidate the cached merged view, no error when nothing
matches. -/
def remove_source (st : ContextManager) (name : String) : ContextManager :=
  { sources := st.sources.filter (fun s => s.name != name), context := [] }

/-- A small concrete filesystem with one file per failure mode of
`load_from_file`, used to instantiate the error-taxonomy theorem. -/
def c10FsW : Filesystem := fun p =>
  if p = "notes.txt" then some ⟨.ok (.vDict []), .ok (.vDict []), "/work/notes.txt"⟩
  else if p = "broken.json" then
    some ⟨.error (.jsonDecodeError "Expecting value: line 1 column 1 (char 0)"), .ok .vNone,
      "/work/broken.json"⟩
  else if p = "list.json" then some ⟨.ok (.vList []), .ok .vNone, "/work/list.json"⟩
  else none

/-! ## Heap embedding

Python dictionaries are heap objects handled by reference, and
`_deep_merge` writes into `target` in place while installing
references to (not copies of) the sub-dictionaries of `source`.  The
heap embedding makes those references explicit, so the mutation of
stored fragment contents and its consequences are observable. -/

/-- A Python value in the heap embedding: scalars are immediate, every
dictionary is a reference to a heap node. -/
inductive HVal where
  | hNone : HVal
  | hBool (b : Bool) : HVal
  | hInt (n : Int) : HVal
  | hStr (s : String) : HVal
  | hList (xs : List HVal) : HVal
  | hRef (a : Nat) : HVal
  deriving Repr

/-- The heap: node `a` is the insertion-ordered entry list of the
dictionary object at address `a`. -/
abbrev Heap : Type := List (List (String × HVal))

/-- Read the dictionary node at an address. -/
def heapGet (h : Heap) (a : Nat) : List (String × HVal) :=
  List.getD h a []

/-- Replace the dictionary node at an address. -/
def heapSet (h : Heap) (a : Nat) (d : List (String × HVal)) : Heap :=
  List.set h a d

mutual
/-- `_deep_merge(target, source)` on the heap: iterate over the
entries of the `source` node (its entry list does not change size
during its own iteration in any run considered here, so the snapshot
taken on entry agrees with Python dict iteration); `isinstance(x,
dict)` is being a reference.  Fuel bounds the recursion depth and is
generous in every use below. -/
def deepMergeH : Nat → Heap → Nat → Nat → Option Heap
  | 0, _, _, _ => none
  | fuel + 1, h, target, source => dmEntries fuel h target (heapGet h source)

/-- The body of the `for key, value in source.items()` loop of
`_deep_merge`, where the target node is re-read at every step so that
mutations made by recursive calls are seen.  Each step also consumes
one unit of fuel. -/
def dmEntries : Nat → Heap → Nat → List (String × HVal) → Option Heap
  | 0, _, _, _ => none
  | _ + 1, h, _, [] => some h
  | fuel + 1, h, target, (key, value) :: rest =>
    match dictLookup (heapGet h target) key, value with
    | some (.hRef a), .hRef b =>
      match deepMergeH fuel h a b with
      | some h2 => dmEntries fuel h2 target rest
      | none => none
    | _, _ =>
      dmEntries fuel (heapSet h target (dictSet (heapGet h target) key value)) target rest
end

/-- `merge_contexts` on the heap: sort the fragments by priority,
highest first, allocate a fresh empty accumulator node and fold every
content node into it with `deepMergeH`.  A fragment is its priority
and the address of its content root. -/
def mergeContextsH (fuel : Nat) (h : Heap) (sources : List (Int × Nat)) :
    Option (Heap × Nat) :=
  let sorted := sortDescBy (fun s => s.1) sources
  let root := h.length
  let h1 : Heap := h ++ [[]]
  (sorted.foldlM (fun hcur s => deepMergeH fuel hcur root s.2) h1).map (fun hf => (hf, root))

mutual
/-- Read a heap value out as a pure `Val` tree (the value a Python
observer sees when printing or comparing the object). -/
def readH : Nat → Heap → HVal → Option Val
  | 0, _, _ => none
  | _ + 1, _, .hNone => some .vNone
  | _ + 1, _, .hBool b => some (.vBool b)
  | _ + 1, _, .hInt n => some (.vInt n)
  | _ + 1, _, .hStr s => some (.vStr s)
  | fuel + 1, h, .hList xs => (readList fuel h xs).map .vList
  | fuel + 1, h, .hRef a => (readEntries fuel h (heapGet h a)).map .vDict

/-- Read each element of a Python list. -/
def readList : Nat → Heap → List HVal → Option (List Val)
  | 0, _, _ => none
  | _ + 1, _, [] => some []
  | fuel + 1, h, v :: rest =>
    match readH fuel h v, readList fuel h rest with
    | some vv, some rr => some (vv :: rr)
    | _, _ => none

/-- Read each entry of a dictionary node. -/
def readEntries : Nat → Heap → List (String × HVal) → Option (List (String × Val))
  | 0, _, _ => none
  | _ + 1, _, [] => some []
  | fuel + 1, h, (k, v) :: rest =>
    match readH fuel h v, readEntries fuel h rest with
    | some vv, some rr => some ((k, vv) :: rr)
    | _, _ => none
end

/-! ## Helper lemmas -/

theorem dictLookup_dictSet_self {α : Type} (t : List (String × α)) (k : String) (v : α) :
    dictLookup (dictSet t k v) k = some v := by
  induction t with
  | nil => simp [dictSet, dictLookup]
  | cons hd tl ih =>
    obtain ⟨k0, v0⟩ := hd
    by_cases hk : k0 = k
    · simp [dictSet, dictLookup, hk]
    · simp [dictSet, dictLookup, hk, ih]

theorem dictLookup_dictSet_ne {α : Type} (t : List (String × α)) (k k2 : String) (v : α)
    (h : k2 ≠ k) : dictLookup (dictSet t k2 v) k = dictLookup t k := by
  induction t with
  | nil => simp [dictSet, dictLookup, h]
  | cons hd tl ih =>
    obtain ⟨k0, v0⟩ := hd
    by_cases hk : k0 = k2
    · subst hk
      simp [dictSet, dictLookup, h]
    · simp [dictSet, dictLookup, hk, ih]

/-- One merge step only rebinds the key it handles. -/
theorem mergeEntry_lookup_ne (t : List (String × Val)) (k0 k : String) (v : Val)
    (h : k0 ≠ k) : dictLookup (mergeEntry t k0 v) k = dictLookup t k := by
  cases v with
  | vDict s =>
    rw [mergeEntry]
    cases hl : dictLookup t k0 with
    | none => simp only [dictLookup_dictSet_ne _ _ _ _ h]
    | some w => cases w <;> simp only [dictLookup_dictSet_ne _ _ _ _ h]
  | vNone => simp [mergeEntry, dictLookup_dictSet_ne _ _ _ _ h]
  | vBool b => simp [mergeEntry, dictLookup_dictSet_ne _ _ _ _ h]
  | vInt n => simp [mergeEntry, dictLookup_dictSet_ne _ _ _ _ h]
  | vStr s => simp [mergeEntry, dictLookup_dictSet_ne _ _ _ _ h]
  | vList xs => simp [mergeEntry, dictLookup_dictSet_ne _ _ _ _ h]

/-- A non-mapping incoming value always lands by plain assignment. -/
theorem mergeEntry_scalar (t : List (String × Val)) (k : String) (v : Val)
    (hs : v.isDict = false) : mergeEntry t k v = dictSet t k v := by
  cases v with
  | vDict s => simp [Val.isDict] at hs
  | vNone => simp [mergeEntry]
  | vBool b => simp [mergeEntry]
  | vInt n => simp [mergeEntry]
  | vStr s => simp [mergeEntry]
  | vList xs => simp [mergeEntry]

/-- Keys that the incoming source does not mention keep their binding
in the accumulator. -/
theorem deep_merge_lookup_absent (source : List (String × Val)) (t : List (String × Val))
    (k : String) (h : k ∉ source.map Prod.fst) :
    dictLookup (deep_merge t source) k = dictLookup t k := by
  induction source generalizing t with
  | nil => rw [deep_merge]
  | cons hd rest ih =>
    obtain ⟨k0, v0⟩ := hd
    simp only [List.map_cons, List.mem_cons] at h
    push_neg at h
    obtain ⟨hne, hrest⟩ := h
    have hne2 : k0 ≠ k := fun hh => hne hh.symm
    rw [deep_merge, ih _ hrest, mergeEntry_lookup_ne _ _ _ _ hne2]

/-- A non-mapping binding in the incoming source is what the merge
result holds at that key, whatever the accumulator held, provided the
source has no duplicate keys (Python dictionaries never do). -/
theorem deep_merge_lookup_scalar (source : List (String × Val)) (t : List (String × Val))
    (k : String) (v : Val) (hv : dictLookup source k = some v) (hs : v.isDict = false)
    (hnd : (source.map Prod.fst).Nodup) :
    dictLookup (deep_merge t source) k = some v := by
  induction source generalizing t with
  | nil => simp [dictLookup] at hv
  | cons hd rest ih =>
    obtain ⟨k0, v0⟩ := hd
    simp only [List.map_cons, List.nodup_cons] at hnd
    obtain ⟨hk0, hndrest⟩ := hnd
    by_cases hk : k0 = k
    · subst hk
      simp only [dictLookup, if_pos rfl] at hv
      injection hv with hv
      subst hv
      rw [deep_merge, deep_merge_lookup_absent _ _ _ hk0, mergeEntry_scalar _ _ _ hs,
        dictLookup_dictSet_self]
    · simp only [dictLookup, if_neg hk] at hv
      rw [deep_merge]
      exact ih _ hv hndrest

/-! ## Claim theorems -/

/-- Claim C1: the spec requires the higher-priority fragment to win on
a shared leaf scalar key, with A = {"k": "A"} at priority 10 and
B = {"k": "B"} at priority 1 giving merge()["k"] == "A".  Evaluating
the code at that very store shows merge()["k"] == "B" in both insertion
orders: `merge_contexts` sorts the fragments highest priority first and
then folds with plain overwrite, so the lowest priority is folded last
and wins. -/
theorem c1_merge_eval_lowest_priority_wins :
    dictLookup (merge_contexts (add_source
      (add_source initManager "A" [("k", .vStr "A")] 10 "unknown" [])
      "B" [("k", .vStr "B")] 1 "unknown" [])).2 "k" = some (.vStr "B")
  ∧ dictLookup (merge_contexts (add_source
      (add_source initManager "B" [("k", .vStr "B")] 1 "unknown" [])
      "A" [("k", .vStr "A")] 10 "unknown" [])).2 "k" = some (.vStr "B") :=
  ⟨rfl, rfl⟩

/-- Claim C2: the spec requires the higher-priority scalar to replace
the lower-priority mapping, source1 = {"a": {"b": 1}} at priority 0 and
source2 = {"a": 5} at priority 10 merging to {"a": 5}.  Evaluating the
code at that store gives {"a": {"b": 1}}: the fold order is inverted,
so the priority-0 mapping is folded after the priority-10 scalar and
replaces it. -/
theorem c2_merge_eval_scalar_replaced_by_mapping :
    (merge_contexts (add_source
      (add_source initManager "source1" [("a", .vDict [("b", .vInt 1)])] 0 "unknown" [])
      "source2" [("a", .vInt 5)] 10 "unknown" [])).2
    = [("a", .vDict [("b", .vInt 1)])] :=
  rfl

/-- Claim C3: the spec requires that, in every store, among two
equal-priority fragments sharing a leaf scalar key the later-added one
wins.  Evaluating the code: with A = {"k": "A"} and B = {"k": "B"}
both at priority 5 (A added first) plus a third fragment
C = {"k": "C"} at priority 1, merge() resolves "k" to "C" — the
inverted descending sort folds the lowest-priority fragment last, so
it overrides the equal-priority pair, where the claim and the spec
algorithm (stable ascending sort, B folded last) give "B".  With the
pair alone the tie-break does come out as claimed, since the stable
sort keeps insertion order among equal priorities. -/
theorem c3_merge_eval_tie_break_overridden_by_lower_priority :
    dictLookup (merge_contexts (add_source (add_source
      (add_source initManager "A" [("k", .vStr "A")] 5 "unknown" [])
      "B" [("k", .vStr "B")] 5 "unknown" [])
      "C" [("k", .vStr "C")] 1 "unknown" [])).2 "k" = some (.vStr "C")
  ∧ dictLookup (merge_contexts (add_source
      (add_source initManager "A" [("k", .vStr "A")] 5 "unknown" [])
      "B" [("k", .vStr "B")] 5 "unknown" [])).2 "k" = some (.vStr "B") :=
  ⟨rfl, rfl⟩

/-- Claim C4: the spec forbids `merge()` from mutating any stored
fragment content.  In the heap embedding, the store holding fragment
A = {"a": {"x": 1}} at priority 10 and fragment B = {"a": {"y": 2}} at
priority 0 (content roots at addresses 1 and 3) violates this: the
accumulator receives a reference to the inner dictionary of A, and
folding B then writes through it, leaving the stored content of A
reading {"a": {"x": 1, "y": 2}}. -/
theorem c4_merge_eval_mutates_fragment_content :
    readH 20 [[("x", .hInt 1)], [("a", .hRef 0)], [("y", .hInt 2)], [("a", .hRef 2)]] (.hRef 1)
      = some (.vDict [("a", .vDict [("x", .vInt 1)])])
  ∧ (mergeContextsH 20 [[("x", .hInt 1)], [("a", .hRef 0)], [("y", .hInt 2)], [("a", .hRef 2)]]
      [(10, 1), (0, 3)]).bind (fun p => readH 20 p.1 (.hRef 1))
      = some (.vDict [("a", .vDict [("x", .vInt 1), ("y", .vInt 2)])])
  ∧ (Val.vDict [("a", .vDict [("x", .vInt 1)])])
      ≠ .vDict [("a", .vDict [("x", .vInt 1), ("y", .vInt 2)])] := by
  refine ⟨rfl, rfl, ?_⟩
  simp

/-- Claim C5: the spec requires `addSource` to invalidate any cached
merged view.  Evaluating the code: after a store with fragment
s1 = {"k": 1} has served one `get` (which populates `self.context`),
appending s2 = {"k": 2} and asking for "k" still returns 1 from the
stale cache, although the merge of the current fragment list binds
"k" to 2. -/
theorem c5_get_eval_serves_stale_cache :
    (get_context
        (add_source (ensureMerged (add_source initManager "s1" [("k", .vInt 1)] 0 "unknown" []))
          "s2" [("k", .vInt 2)] 0 "unknown" [])
        (some "k") .vNone).toOption.map (fun r => r.2) = some (.vInt 1)
  ∧ dictLookup (merge_contexts
        (add_source (ensureMerged (add_source initManager "s1" [("k", .vInt 1)] 0 "unknown" []))
          "s2" [("k", .vInt 2)] 0 "unknown" [])).2 "k" = some (.vInt 2) :=
  ⟨rfl, rfl⟩

/-- Claim C6: in the store of the claim — "s" = {"theme": "dark"} at
priority 0 then "override" = {"theme": "light"} at priority 10 — the
code answers `get("theme") == "dark"` already before any removal,
because the merge fold is inverted (the claim expects "light").  With
the spec-modelled `remove_source`, removing "override" leaves
`get("theme") == "dark"`, and removing an unmatched name is a no-op on
the fragment list. -/
theorem c6_remove_source_eval :
    (get_context
        (add_source (add_source initManager "s" [("theme", .vStr "dark")] 0 "unknown" [])
          "override" [("theme", .vStr "light")] 10 "unknown" [])
        (some "theme") .vNone).toOption.map (fun r => r.2) = some (.vStr "dark")
  ∧ (get_context
        (remove_source
          (ensureMerged
            (add_source (add_source initManager "s" [("theme", .vStr "dark")] 0 "unknown" [])
              "override" [("theme", .vStr "light")] 10 "unknown" []))
          "override")
        (some "theme") .vNone).toOption.map (fun r => r.2) = some (.vStr "dark")
  ∧ (remove_source
        (add_source (add_source initManager "s" [("theme", .vStr "dark")] 0 "unknown" [])
          "override" [("theme", .vStr "light")] 10 "unknown" [])
        "absent").sources
      = (add_source (add_source initManager "s" [("theme", .vStr "dark")] 0 "unknown" [])
          "override" [("theme", .vStr "light")] 10 "unknown" []).sources :=
  ⟨rfl, rfl, rfl⟩

/-- Claim C7: the spec requires `merge()` to be idempotent.  In the
heap embedding, the store with fragments s1 = {"b": D}, s2 = {"a": X,
"b": X} (one shared empty dictionary X) and s3 = {"a": {"b": 1}}, all
at priority 0, refutes this: the first merge mutates X through the
accumulator, so the second merge writes {"b": 1} into D as well, and
the two calls return mappings that differ at key "b". -/
theorem c7_merge_eval_not_idempotent :
    (mergeContextsH 20
        [[], [("b", .hRef 0)], [], [("a", .hRef 2), ("b", .hRef 2)], [("b", .hInt 1)],
          [("a", .hRef 4)]]
        [(0, 1), (0, 3), (0, 5)]).bind (fun p => readH 20 p.1 (.hRef p.2))
      = some (.vDict [("b", .vDict []), ("a", .vDict [("b", .vInt 1)])])
  ∧ (mergeContextsH 20
        [[], [("b", .hRef 0)], [], [("a", .hRef 2), ("b", .hRef 2)], [("b", .hInt 1)],
          [("a", .hRef 4)]]
        [(0, 1), (0, 3), (0, 5)]).bind (fun p =>
          (mergeContextsH 20 p.1 [(0, 1), (0, 3), (0, 5)]).bind (fun q =>
            readH 20 q.1 (.hRef q.2)))
      = some (.vDict [("b", .vDict [("b", .vInt 1)]), ("a", .vDict [("b", .vInt 1)])])
  ∧ (Val.vDict [("b", .vDict []), ("a", .vDict [("b", .vInt 1)])])
      ≠ .vDict [("b", .vDict [("b", .vInt 1)]), ("a", .vDict [("b", .vInt 1)])] := by
  refine ⟨rfl, rfl, ?_⟩
  simp

/-- A subscript failure is a `KeyError` or a `TypeError`, never any
other exception. -/
theorem subscript_error_kind (v : Val) (k : String) (e : PyExc)
    (h : subscript v k = .error e) :
    (∃ m, e = .keyError m) ∨ (∃ m, e = .typeError m) := by
  cases v with
  | vDict d =>
    simp only [subscript] at h
    cases hl : dictLookup d k with
    | some x => rw [hl] at h; cases h
    | none => rw [hl] at h; injection h with h; exact Or.inl ⟨k, h.symm⟩
  | vNone => injection h with h; exact Or.inr ⟨_, h.symm⟩
  | vBool b => injection h with h; exact Or.inr ⟨_, h.symm⟩
  | vInt n => injection h with h; exact Or.inr ⟨_, h.symm⟩
  | vStr s => injection h with h; exact Or.inr ⟨_, h.symm⟩
  | vList xs => injection h with h; exact Or.inr ⟨_, h.symm⟩

/-- The walk in `get_context` can only fail with the two exception
kinds that the code catches. -/
theorem walkPath_error_kind (v : Val) (segs : List String) (e : PyExc)
    (h : walkPath v segs = .error e) :
    (∃ m, e = .keyError m) ∨ (∃ m, e = .typeError m) := by
  induction segs generalizing v with
  | nil => simp [walkPath] at h
  | cons k rest ih =>
    rw [walkPath] at h
    cases hs : subscript v k with
    | ok v2 => rw [hs] at h; exact ih v2 h
    | error e2 =>
      rw [hs] at h
      injection h with h
      subst h
      exact subscript_error_kind v k e2 hs

/-- Claim C8: `get` with a dotted path never raises — the walk can
only fail with the `KeyError` or `TypeError` that the code catches —
and whenever the walk fails at some step (key absent or current value
not a mapping), `get` returns the supplied default. -/
theorem c8_get_missing_path_returns_default (st : ContextManager) (k : String) (d : Val) :
    (∃ r, get_context st (some k) d = .ok r)
  ∧ (∀ e, walkPath (.vDict (ensureMerged st).context) (splitDot k) = .error e →
      get_context st (some k) d = .ok (ensureMerged st, d)) := by
  constructor
  · cases hw : walkPath (.vDict (ensureMerged st).context) (splitDot k) with
    | ok v => exact ⟨(ensureMerged st, v), by simp [get_context, hw]⟩
    | error e =>
      rcases walkPath_error_kind _ _ _ hw with ⟨m, rfl⟩ | ⟨m, rfl⟩
      · exact ⟨(ensureMerged st, d), by simp [get_context, hw]⟩
      · exact ⟨(ensureMerged st, d), by simp [get_context, hw]⟩
  · intro e he
    rcases walkPath_error_kind _ _ _ he with ⟨m, rfl⟩ | ⟨m, rfl⟩ <;> simp [get_context, he]

/-- Witness for C8: on the empty store the path "x.y.z" is absent and
`get` returns the fallback value. -/
theorem c8_witness :
    get_context initManager (some "x.y.z") (.vStr "fallback")
      = .ok (ensureMerged initManager, .vStr "fallback") :=
  (c8_get_missing_path_returns_default initManager "x.y.z" (.vStr "fallback")).2
    (.keyError "x") rfl

/-- Counterexample for C9: on the store with fragment {"k": 1}, a call
with the empty path string returns the fallback default, not the full
merged mapping — `"".split(".")` is [""], so the walk looks up the
empty-string key and fails. -/
theorem c9_counterexample_empty_path_returns_default :
    (get_context (add_source initManager "s" [("k", .vInt 1)] 0 "unknown" []) (some "")
        (.vStr "fallback")).toOption.map (fun r => r.2) = some (.vStr "fallback")
  ∧ (merge_contexts (add_source initManager "s" [("k", .vInt 1)] 0 "unknown" [])).2
      = [("k", .vInt 1)]
  ∧ (Val.vStr "fallback") ≠ .vDict [("k", .vInt 1)] := by
  refine ⟨rfl, rfl, ?_⟩
  simp

/-- Claim C9 as amended: only an omitted path returns the full merged
mapping (merging when no cached view exists); an empty path string is
treated as the single empty-string key, so it returns the default
whenever the merged mapping has no empty-string key. -/
theorem c9_amended_omitted_path_returns_merged (st : ContextManager) (d : Val)
    (h1 : st.context = []) (h2 : dictLookup (merge_contexts st).2 "" = none) :
    get_context st none d = .ok ((merge_contexts st).1, .vDict (merge_contexts st).2)
  ∧ get_context st (some "") d = .ok ((merge_contexts st).1, d) := by
  have hem : ensureMerged st = (merge_contexts st).1 := by
    simp [ensureMerged, h1]
  have hctx : (merge_contexts st).1.context = (merge_contexts st).2 := rfl
  constructor
  · simp [get_context, hem, hctx]
  · have hsplit : splitDot "" = [""] := rfl
    simp [get_context, hem, hsplit, walkPath, subscript, hctx, h2]

/-- Witness for C9 at the store with fragment {"k": 1}: an omitted
path yields the merged mapping, the empty path yields the default. -/
theorem c9_amended_witness :
    get_context (add_source initManager "w9" [("k", .vInt 1)] 0 "unknown" []) none .vNone
      = .ok ((merge_contexts (add_source initManager "w9" [("k", .vInt 1)] 0 "unknown" [])).1,
          .vDict (merge_contexts (add_source initManager "w9" [("k", .vInt 1)] 0 "unknown" [])).2)
  ∧ get_context (add_source initManager "w9" [("k", .vInt 1)] 0 "unknown" []) (some "") .vNone
      = .ok ((merge_contexts (add_source initManager "w9" [("k", .vInt 1)] 0 "unknown" [])).1,
          .vNone) :=
  c9_amended_omitted_path_returns_merged _ _ rfl rfl

/-- Counterexample for C10: a .txt file does not surface as a bare
unsupported-format error; the `raise ValueError` sits inside the `try`
block, so it is caught and re-raised wrapped in the same
"Failed to load context from ..." ValueError that parse failures
produce. -/
theorem c10_counterexample_txt_error_is_wrapped :
    load_from_file
      (fun p =>
        if p = "notes.txt" then
          some ⟨.error (.jsonDecodeError "Expecting value: line 1 column 1 (char 0)"),
            .error (.yamlError "scanner error"), "/work/notes.txt"⟩
        else none)
      initManager "notes.txt" 0
      = .error (.valueError "Failed to load context from notes.txt: Unsupported file format: .txt")
  ∧ ("Failed to load context from notes.txt: Unsupported file format: .txt"
      ≠ "Unsupported file format: .txt") := by
  refine ⟨rfl, ?_⟩
  decide

/-- Claim C10 as amended: `loadFromFile` raises `FileNotFoundError`
for a missing path, unwrapped; every failure inside the `try` block —
unsupported extension, parse failure, or non-mapping top level — is
re-raised as the wrapped "Failed to load context from ..." ValueError
with the original detail preserved in the message, so only the
missing-path case is a distinct kind. -/
theorem c10_amended_error_taxonomy
    (fs : Filesystem) (st : ContextManager) (prio : Int)
    (pMiss pTxt pJson pBad : String)
    (eTxt eJson eBad : FileEntry) (emsg : String) (badTop : Val)
    (hMiss : fs pMiss = none)
    (hTxt : fs pTxt = some eTxt) (hTxtSfx : strLower (pathSuffix pTxt) = ".txt")
    (hJson : fs pJson = some eJson) (hJsonSfx : strLower (pathSuffix pJson) = ".json")
    (hParse : eJson.parseJson = .error (.jsonDecodeError emsg))
    (hBad : fs pBad = some eBad) (hBadSfx : strLower (pathSuffix pBad) = ".json")
    (hTop : eBad.parseJson = .ok badTop) (hTopD : badTop.isDict = false) :
    load_from_file fs st pMiss prio
      = .error (.fileNotFoundError ("Context file not found: " ++ pMiss))
  ∧ load_from_file fs st pTxt prio
      = .error (.valueError ("Failed to load context from " ++ pTxt ++ ": "
          ++ ("Unsupported file format: " ++ pathSuffix pTxt)))
  ∧ load_from_file fs st pJson prio
      = .error (.valueError ("Failed to load context from " ++ pJson ++ ": " ++ emsg))
  ∧ load_from_file fs st pBad prio
      = .error (.valueError ("Failed to load context from " ++ pBad ++ ": "
          ++ pydanticValidationMsg)) := by
  refine ⟨?_, ?_, ?_, ?_⟩
  · simp [load_from_file, hMiss]
  · simp [load_from_file, hTxt, hTxtSfx, PyExc.toStr]
  · simp [load_from_file, hJson, hJsonSfx, hParse, PyExc.toStr, Except.bind]
  · have hchk : ∀ nm pr ty md, addSourceChecked st nm badTop pr ty md
        = .error (.validationError pydanticValidationMsg) := by
      intro nm pr ty md
      cases badTop <;> simp_all [Val.isDict, addSourceChecked]
    simp [load_from_file, hBad, hBadSfx, hTop, hchk, PyExc.toStr, Except.bind]

/-- Witness for C10 on a four-file filesystem exercising all four
failure paths. -/
theorem c10_amended_witness :
    load_from_file c10FsW initManager "missing.json" 0
      = .error (.fileNotFoundError ("Context file not found: " ++ "missing.json"))
  ∧ load_from_file c10FsW initManager "notes.txt" 0
      = .error (.valueError ("Failed to load context from " ++ "notes.txt" ++ ": "
          ++ ("Unsupported file format: " ++ pathSuffix "notes.txt")))
  ∧ load_from_file c10FsW initManager "broken.json" 0
      = .error (.valueError ("Failed to load context from " ++ "broken.json" ++ ": "
          ++ "Expecting value: line 1 column 1 (char 0)"))
  ∧ load_from_file c10FsW initManager "list.json" 0
      = .error (.valueError ("Failed to load context from " ++ "list.json" ++ ": "
          ++ pydanticValidationMsg)) :=
  c10_amended_error_taxonomy c10FsW initManager 0 "missing.json" "notes.txt" "broken.json"
    "list.json"
    ⟨.ok (.vDict []), .ok (.vDict []), "/work/notes.txt"⟩
    ⟨.error (.jsonDecodeError "Expecting value: line 1 column 1 (char 0)"), .ok .vNone,
      "/work/broken.json"⟩
    ⟨.ok (.vList []), .ok .vNone, "/work/list.json"⟩
    "Expecting value: line 1 column 1 (char 0)" (.vList [])
    rfl rfl rfl rfl rfl rfl rfl rfl rfl rfl
